import Mathlib

/-!
Shallow embedding of the zk_firmation repository core: the generic
zero-knowledge claim-verification and revocation model.

Embedded source locations:
- `RevocationSystem` (revoke / isRevoked), `VerificationHistory`
  (addEntry / getForDocument), `GenericZkProgram` circuit methods
  (verifyStringInfo / verifyDate / verifyAgeRange / verifyDocumentValidity)
  and the `ZkpManager` prove wrappers and query classifier: src/unnamed/part_008.
- `Person.fromPersonData` / `Person.isAdult`: src/scripts/ocr-zkp-mina.ts.
- `Etudiant.estMajeur` / `Etudiant.ageEstDansIntervalle`: src/scripts/zkp-advanced.js.

Modelling conventions: o1js `Field` values are modelled as `Nat` (the
canonical residue), `UInt32` as `Nat`, JS timestamps as `Int` milliseconds,
the Poseidon hash and the string-to-field hash as abstract function
parameters (`HashFns`).  Fallible circuit methods (methods containing
`assert*` calls, which throw on violation) return `Option`.
-/

namespace ZkFirmation

/-! ### Field encoding

o1js field elements are residues modulo the Pallas base field order.
`Field(n)` on a negative JS number wraps modulo that order. -/

/-- The o1js `Field` modulus (Pallas base field order). -/
def fieldP : Nat := 28948022309329048855892746252171976963363056481941560715954676764349967630337

/-- Encoding of `Field(i)` for a possibly negative integer input: the canonical residue. -/
def fieldOfInt (i : Int) : Nat := (i % (fieldP : Int)).toNat

/-! ### Revocation registry (`RevocationSystem`, src/unnamed/part_008 lines 128-209)

The o1js `MerkleMap` is, observationally for `set`/`get`, a total map from
field elements to field elements that is `0` everywhere by default.  We model
its key-value content as an association list with update-in-place `set` and
default-`0` `get`.  The `save()` side effect (durable write) is irrelevant to
the claims and is not modelled. -/

/-- Model of `MerkleMap.set`: update the binding of `k`, or append it when absent. -/
def mapSet : List (Nat × Nat) → Nat → Nat → List (Nat × Nat)
  | [], k, v => [(k, v)]
  | (k0, v0) :: rest, k, v =>
    if k0 = k then (k, v) :: rest else (k0, v0) :: mapSet rest k v

/-- Model of `MerkleMap.get`: value bound to `k`, or the default `Field(0)`. -/
def mapGet : List (Nat × Nat) → Nat → Nat
  | [], _ => 0
  | (k0, v0) :: rest, k => if k0 = k then v0 else mapGet rest k

/-- Model of `RevocationSystem.revoke(hash, timestamp = Date.now())`:
`this.merkleMap.set(hash, Field(timestamp))` (then persists). -/
def revoke (m : List (Nat × Nat)) (hash : Nat) (timestamp : Nat) : List (Nat × Nat) :=
  mapSet m hash timestamp

/-- The JS value `value.equals(Field(0))` is an o1js `Bool` *object* (not a
primitive `boolean`); we record the wrapped circuit value alongside. -/
structure JsBoolObj where
  val : Bool

/-- JS `ToBoolean` on an object: every object is truthy, regardless of the
wrapped value. -/
def jsTruthy (_ : JsBoolObj) : Bool := true

/-- The call `Field.equals(Field 0)` as the source makes it: returns the o1js `Bool`
object wrapping the actual equality test. -/
def fieldEqualsZero (value : Nat) : JsBoolObj := ⟨value == 0⟩

/-- Model of `RevocationSystem.isRevoked(hash)`: the source returns
`!value.equals(Field(0))` — a JS `!` applied to the `Bool` object returned by
`equals`, i.e. the negation of the object's truthiness. -/
def isRevoked (m : List (Nat × Nat)) (hash : Nat) : Bool :=
  let value := mapGet m hash
  ! jsTruthy (fieldEqualsZero value)

/-- The behaviour `isRevoked` documents (its JSDoc: returns `true` iff the
hash is revoked, i.e. `map.get(hash) != 0`): the circuit value inside the
`Bool` object, negated, as `value.equals(Field(0)).not().toBoolean()` would
compute it. -/
def isRevokedDocumented (m : List (Nat × Nat)) (hash : Nat) : Bool :=
  ! (fieldEqualsZero (mapGet m hash)).val

/-! ### Verification history (`VerificationHistory`, src/unnamed/part_008 lines 214-285)

`addEntry` pushes one entry (stamped `Date.now()`) onto the in-memory array
and persists; `getForDocument` filters on the document hash.  Field hashes
are stored stringified in the source; `Field.toString` is injective on
canonical residues so we keep them as `Nat`. -/

/-- The argument record handed to `addEntry` by the prove wrappers. -/
structure Verification where
  infoHash : Nat
  documentHash : Nat
  query : String
  result : Bool
  proofType : String
deriving Repr, DecidableEq

/-- One persisted history entry (`timestamp` is `Date.now()` at append time). -/
structure HistoryEntry where
  timestamp : Nat
  infoHash : Nat
  documentHash : Nat
  query : String
  result : Bool
  proofType : String
deriving Repr, DecidableEq

/-- The entry `addEntry` builds from a verification record. -/
def mkEntry (now : Nat) (v : Verification) : HistoryEntry :=
  { timestamp := now
    infoHash := v.infoHash
    documentHash := v.documentHash
    query := v.query
    result := v.result
    proofType := v.proofType }

/-- Model of `VerificationHistory.addEntry`: `this.history.push(entry)` (then persists). -/
def addEntry (history : List HistoryEntry) (now : Nat) (v : Verification) : List HistoryEntry :=
  history ++ [mkEntry now v]

/-- A sequence of `addEntry` calls, each with its own `Date.now()` stamp. -/
def appendAll (history : List HistoryEntry) (calls : List (Nat × Verification)) :
    List HistoryEntry :=
  calls.foldl (fun h c => addEntry h c.1 c.2) history

/-- Model of `VerificationHistory.getForDocument`: filter on the stored document hash. -/
def getForDocument (history : List HistoryEntry) (documentHash : Nat) : List HistoryEntry :=
  history.filter (fun entry => entry.documentHash == documentHash)

/-! ### Query classification (`ZkpManager.generateProofFromQuery`,
src/unnamed/part_008 lines 721-758)

The source lower-cases the query and branches on `String.includes` keyword
tests, with one branch additionally matching the regular expression
`/(\d+)\s*(et|à|au|jusqu\x27à)\s*(\d+)/`.  We embed `includes` as substring
search over character lists and the regular expression as a left-to-right
scan (the pattern is deterministic: its alternatives start with distinct
non-digit, non-space characters, so greedy matching needs no backtracking).
JS `toLowerCase` is embedded character-wise over the Basic Latin and Latin-1
ranges, the only ones arising in the French queries the source handles. -/

/-- JS `toLowerCase` on one character, restricted to Basic Latin and Latin-1:
upper-case letters (including the accented Latin-1 ones, excluding the
multiplication sign) gain 0x20. -/
def jsLowerChar (c : Char) : Char :=
  if ('A' ≤ c && c ≤ 'Z') || ('À' ≤ c && c ≤ 'Þ' && c != '×') then
    Char.ofNat (c.toNat + 32)
  else c

/-- JS `query.toLowerCase()`, character-wise. -/
def jsToLowerCase (s : String) : String := ⟨s.data.map jsLowerChar⟩

/-- Does the pattern (first argument) start the given character list? -/
def charsStartsWith : List Char → List Char → Bool
  | [], _ => true
  | _ :: _, [] => false
  | p :: ps, c :: cs => p == c && charsStartsWith ps cs

/-- Does the pattern occur anywhere in the given character list? -/
def charsHasSub (pat : List Char) : List Char → Bool
  | [] => pat.isEmpty
  | c :: cs => charsStartsWith pat (c :: cs) || charsHasSub pat cs

/-- JS `s.includes(pat)`. -/
def strHasSub (s pat : String) : Bool := charsHasSub pat.data s.data

/-- JS whitespace class `\s` (restricted to its ASCII members, the only ones
arising in the modelled queries). -/
def isJsSpace (c : Char) : Bool :=
  c == ' ' || c == '\t' || c == '\n' || c == '\r' || c == '\x0b' || c == '\x0c'

/-- Numeric value of a (decimal) digit run, as `parseInt(-, 10)` computes it. -/
def digitsVal (ds : List Char) : Nat :=
  ds.foldl (fun acc c => 10 * acc + (c.toNat - '0'.toNat)) 0

/-- Strip one of the alternatives `et|à|au|jusqu\x27à` (tried in the regular
expression's order) from the front of the list. -/
def stripAlt (s : List Char) : Option (List Char) :=
  if charsStartsWith "et".data s then some (s.drop 2)
  else if charsStartsWith "à".data s then some (s.drop 1)
  else if charsStartsWith "au".data s then some (s.drop 2)
  else if charsStartsWith "jusqu\x27à".data s then some (s.drop 7)
  else none

/-- Try to match `(\d+)\s*(et|à|au|jusqu\x27à)\s*(\d+)` anchored at the head of
the list, returning the two captured numbers. -/
def tryMatchAt (s : List Char) : Option (Nat × Nat) :=
  let d1 := s.takeWhile Char.isDigit
  if d1.isEmpty then none else
  let r1 := (s.dropWhile Char.isDigit).dropWhile isJsSpace
  match stripAlt r1 with
  | none => none
  | some r2 =>
    let r3 := r2.dropWhile isJsSpace
    let d2 := r3.takeWhile Char.isDigit
    if d2.isEmpty then none else some (digitsVal d1, digitsVal d2)

/-- First match of the age-range regular expression in the list, scanning
start positions left to right as the JS engine does. -/
def matchAgeRange : List Char → Option (Nat × Nat)
  | [] => none
  | c :: cs =>
    match tryMatchAt (c :: cs) with
    | some r => some r
    | none => matchAgeRange cs

/-- The proof kind `generateProofFromQuery` dispatches to: which `prove*`
wrapper is invoked, and with which age bounds. -/
inductive ProofDispatch where
  | ageRange (minAge maxAge : Nat)
  | dateProof
  | docValidity
  | stringInfo
deriving Repr, DecidableEq

/-- The classification decision of `ZkpManager.generateProofFromQuery`
(src/unnamed/part_008 lines 721-758): each constructor records which wrapper
the source dispatches to (`proveAgeRange`, `proveDate`,
`proveDocumentValidity`, `proveStringInfo`). -/
def classifyQuery (query : String) : ProofDispatch :=
  let nq := jsToLowerCase query
  if strHasSub nq "date" &&
      (strHasSub nq "naissance" || strHasSub nq "né" || strHasSub nq "née") then
    if strHasSub nq "majeur" || strHasSub nq "adulte" || strHasSub nq "18 ans" then
      ProofDispatch.ageRange 18 150
    else if strHasSub nq "entre" && (matchAgeRange nq.data).isSome then
      match matchAgeRange nq.data with
      | some (minAge, maxAge) => ProofDispatch.ageRange minAge maxAge
      | none => ProofDispatch.dateProof
    else ProofDispatch.dateProof
  else if strHasSub nq "date" &&
      (strHasSub nq "expiration" || strHasSub nq "validité" ||
        strHasSub nq "expire" || strHasSub nq "validité") then
    ProofDispatch.dateProof
  else if strHasSub nq "valide" || strHasSub nq "authentique" ||
      strHasSub nq "signé" || strHasSub nq "validité" then
    ProofDispatch.docValidity
  else
    ProofDispatch.stringInfo

/-! ### Circuit methods (`GenericZkProgram`, src/unnamed/part_008 lines 290-453)

Poseidon and the string hash are abstract parameters.  Each method that
contains `assert*` calls throws on violation when the prover runs it, so it
is embedded as `Option`: `none` is an assertion failure.  The revocation
witness only contributes the recomputed root to the public output; we pass
that root directly. -/

/-- The external hash primitives (o1js Poseidon over field lists, and
Poseidon over `CircuitString.fromString(s).toFields()` for strings). -/
structure HashFns where
  hashStr : String → Nat
  hashFields : List Nat → Nat

/-- The `GenericDocument` struct (src/unnamed/part_008 lines 59-65). -/
structure GenericDocumentF where
  infoHashes : Nat
  documentTypeHash : Nat
  dateHash : Nat
  signatureHash : Nat
  metadataHash : Nat
deriving Repr, DecidableEq

/-- The `GenericZkProgram` public output struct. -/
structure PublicOutput where
  infoHash : Nat
  documentHash : Nat
  isValid : Bool
  proofTypeHash : Nat
  revocationRootHash : Nat
deriving Repr, DecidableEq

/-- JS `n.toString().padStart(2, '0')`. -/
def pad2 (n : Nat) : String :=
  let s := toString n
  if s.length < 2 then "0" ++ s else s

/-- The `DD/MM/YYYY` string the circuits hash as the info. -/
def dateString (day month year : Nat) : String :=
  pad2 day ++ "/" ++ pad2 month ++ "/" ++ toString year

/-- The value `Poseidon.hash([infoHashes, documentTypeHash, dateHash])`, computed
identically in every circuit method and wrapper. -/
def docHash (hs : HashFns) (d : GenericDocumentF) : Nat :=
  hs.hashFields [d.infoHashes, d.documentTypeHash, d.dateHash]

/-- Model of `GenericZkProgram.verifyStringInfo` (lines 305-334): no assertions;
returns `isValid: Bool(true)`. -/
def verifyStringInfo (hs : HashFns) (info _context : String)
    (document : GenericDocumentF) (revocationRoot : Nat) : Option PublicOutput :=
  some { infoHash := hs.hashStr info
         documentHash := docHash hs document
         isValid := true
         proofTypeHash := hs.hashStr "string_verification"
         revocationRootHash := revocationRoot }

/-- Model of `GenericZkProgram.verifyDate` (lines 339-374): asserts `month ≤ 12` then
`day ≤ 31`; returns `isValid: Bool(true)`. -/
def verifyDate (hs : HashFns) (day month year : Nat)
    (document : GenericDocumentF) (revocationRoot : Nat) : Option PublicOutput :=
  if month ≤ 12 then
    if day ≤ 31 then
      some { infoHash := hs.hashStr (dateString day month year)
             documentHash := docHash hs document
             isValid := true
             proofTypeHash := hs.hashStr "date_verification"
             revocationRootHash := revocationRoot }
    else none
  else none

/-- Model of `GenericZkProgram.verifyAgeRange` (lines 379-418): computes
`age = currentYear.sub(birthYear)` (`UInt32.sub` fails on underflow), asserts
`minAge ≤ age ≤ maxAge`, and returns `isValid: Bool(true)`.  `currentYear`
models `new Date().getFullYear()`. -/
def verifyAgeRange (hs : HashFns) (currentYear : Nat)
    (birthDay birthMonth birthYear minAge maxAge : Nat)
    (document : GenericDocumentF) (revocationRoot : Nat) : Option PublicOutput :=
  if birthYear ≤ currentYear then
    let age := currentYear - birthYear
    if minAge ≤ age ∧ age ≤ maxAge then
      some { infoHash := hs.hashStr (dateString birthDay birthMonth birthYear)
             documentHash := docHash hs document
             isValid := true
             proofTypeHash := hs.hashStr "age_range_verification"
             revocationRootHash := revocationRoot }
    else none
  else none

/-- Model of `GenericZkProgram.verifyDocumentValidity` (lines 423-451): asserts
`document.isSigned()` (`signatureHash ≠ 0`); returns `isValid: Bool(true)`. -/
def verifyDocumentValidity (hs : HashFns) (document : GenericDocumentF)
    (revocationRoot : Nat) : Option PublicOutput :=
  if document.signatureHash ≠ 0 then
    some { infoHash := document.infoHashes
           documentHash := docHash hs document
           isValid := true
           proofTypeHash := hs.hashStr "document_validity"
           revocationRootHash := revocationRoot }
  else none

/-! ### Prove wrappers (`ZkpManager.prove*`, src/unnamed/part_008 lines 480-712)

Each wrapper runs its circuit method inside `try`/`catch`: on success it
appends a history entry whose `result` is `publicOutput.isValid.toBoolean()`
and returns `{success: true, ..., isValid}`; a thrown assertion is caught and
yields `{success: false, error}` with no history entry.  Date-string parsing
into components and `GenericDocument.fromInfo` happen before the circuit call
and are taken as already-performed inputs here. -/

/-- The discriminated result the wrappers return: `success` with the
`isValid` payload field present exactly on success. -/
structure ProveResult where
  success : Bool
  isValid : Option Bool
deriving Repr, DecidableEq

/-- Model of `ZkpManager.proveStringInfo` (lines 480-530). -/
def proveStringInfo (hs : HashFns) (now : Nat) (info : String)
    (document : GenericDocumentF) (revocationRoot : Nat) (query : String)
    (history : List HistoryEntry) : ProveResult × List HistoryEntry :=
  match verifyStringInfo hs info query document revocationRoot with
  | some out =>
    ({ success := true, isValid := some out.isValid },
     addEntry history now
       { infoHash := out.infoHash, documentHash := out.documentHash,
         query := query, result := out.isValid, proofType := "string_verification" })
  | none => ({ success := false, isValid := none }, history)

/-- Model of `ZkpManager.proveDate` (lines 539-590). -/
def proveDate (hs : HashFns) (now : Nat) (day month year : Nat)
    (document : GenericDocumentF) (revocationRoot : Nat) (query : String)
    (history : List HistoryEntry) : ProveResult × List HistoryEntry :=
  match verifyDate hs day month year document revocationRoot with
  | some out =>
    ({ success := true, isValid := some out.isValid },
     addEntry history now
       { infoHash := out.infoHash, documentHash := out.documentHash,
         query := query, result := out.isValid, proofType := "date_verification" })
  | none => ({ success := false, isValid := none }, history)

/-- Model of `ZkpManager.proveAgeRange` (lines 601-659). -/
def proveAgeRange (hs : HashFns) (currentYear now : Nat)
    (birthDay birthMonth birthYear minAge maxAge : Nat)
    (document : GenericDocumentF) (revocationRoot : Nat) (query : String)
    (history : List HistoryEntry) : ProveResult × List HistoryEntry :=
  match verifyAgeRange hs currentYear birthDay birthMonth birthYear minAge maxAge
      document revocationRoot with
  | some out =>
    ({ success := true, isValid := some out.isValid },
     addEntry history now
       { infoHash := out.infoHash, documentHash := out.documentHash,
         query := query, result := out.isValid, proofType := "age_range_verification" })
  | none => ({ success := false, isValid := none }, history)

/-- Model of `ZkpManager.proveDocumentValidity` (lines 667-712). -/
def proveDocumentValidity (hs : HashFns) (now : Nat)
    (document : GenericDocumentF) (revocationRoot : Nat) (query : String)
    (history : List HistoryEntry) : ProveResult × List HistoryEntry :=
  match verifyDocumentValidity hs document revocationRoot with
  | some out =>
    ({ success := true, isValid := some out.isValid },
     addEntry history now
       { infoHash := out.infoHash, documentHash := out.documentHash,
         query := query, result := out.isValid, proofType := "document_validity" })
  | none => ({ success := false, isValid := none }, history)

/-! ### Person fingerprint (`Person`, src/scripts/ocr-zkp-mina.ts lines 102-145)

`fromPersonData` parses the `DD/MM/YYYY` birth string into a JS `Date` and
computes `Math.floor((referenceDate - birthDate) / 86400000)`; dates are
modelled by their millisecond timestamps.  The result is passed to `Field`,
which reduces negative numbers modulo the field order.  The constructor
performs no validation and never throws on in-range timestamps. -/

/-- Model of `Math.floor((referenceTime - birthTime) / (1000*60*60*24))`:
floor division of millisecond difference by a day. -/
def computedAgeInDays (referenceTime birthTime : Int) : Int :=
  (referenceTime - birthTime).fdiv 86400000

/-- The `Person` struct: all four components are field elements. -/
structure Person where
  firstNameHash : Nat
  lastNameHash : Nat
  ageProof : Nat
  addressHash : Nat
deriving Repr, DecidableEq

/-- Model of `Person.fromPersonData` (lines 109-134): hashes the names, hashes the
address or uses `Field(0)` for an empty one, and stores
`Field(ageInDays)`. -/
def fromPersonData (hs : HashFns) (firstName lastName address : String)
    (birthTime referenceTime : Int) : Person :=
  { firstNameHash := hs.hashStr firstName
    lastNameHash := hs.hashStr lastName
    ageProof := fieldOfInt (computedAgeInDays referenceTime birthTime)
    addressHash := if address = "" then 0 else hs.hashStr address }

/-- Model of `Person.isAdult` (lines 137-144): `ageProof ≥ Field(6570)` on canonical
field values (`Provable.if(ge, Bool(true), Bool(false))`). -/
def Person.isAdult (p : Person) : Bool :=
  decide (6570 ≤ p.ageProof)

/-! ### Student fingerprint (`Etudiant`, src/scripts/zkp-advanced.js lines 89-146) -/

/-- The `Etudiant` struct; `ageEnJours` is the age in days stored as a field
element. -/
structure Etudiant where
  nomHash : Nat
  naissanceHash : Nat
  lieuHash : Nat
  numeroHash : Nat
  ageEnJours : Nat
deriving Repr, DecidableEq

/-- Model of `Etudiant.estMajeur` (lines 121-129): `ageEnJours ≥ Field(6570)`. -/
def Etudiant.estMajeur (e : Etudiant) : Bool :=
  decide (6570 ≤ e.ageEnJours)

/-- Model of `Etudiant.ageEstDansIntervalle` (lines 137-145):
`ageEnJours ≥ min*365 AND ageEnJours ≤ max*365`. -/
def Etudiant.ageEstDansIntervalle (e : Etudiant) (minAnnees maxAnnees : Nat) : Bool :=
  decide (minAnnees * 365 ≤ e.ageEnJours) && decide (e.ageEnJours ≤ maxAnnees * 365)

/-- A trivial instantiation of the abstract hash primitives, used to
evaluate the model on concrete inputs. -/
def trivHash : HashFns :=
  { hashStr := fun _ => 0, hashFields := fun _ => 0 }

/-- A concrete signed document for evaluating the model. -/
def sampleDoc : GenericDocumentF :=
  { infoHashes := 11, documentTypeHash := 12, dateHash := 13
    signatureHash := 14, metadataHash := 15 }

/-- A concrete verification record targeting document hash 3. -/
def sampleVerifA : Verification :=
  { infoHash := 21, documentHash := 3, query := "q1", result := true
    proofType := "string_verification" }

/-- A second concrete verification record targeting document hash 3. -/
def sampleVerifB : Verification :=
  { infoHash := 22, documentHash := 3, query := "q2", result := true
    proofType := "date_verification" }

theorem mapGet_mapSet_self (m : List (Nat × Nat)) (k v : Nat) :
    mapGet (mapSet m k v) k = v := by
  induction m with
  | nil => simp [mapSet, mapGet]
  | cons p rest ih =>
    rcases p with ⟨k0, v0⟩
    by_cases h : k0 = k
    · simp [mapSet, mapGet, h]
    · simp [mapSet, mapGet, h, ih]

theorem mapGet_of_not_mem (m : List (Nat × Nat)) (k : Nat)
    (h : ∀ p ∈ m, p.1 ≠ k) : mapGet m k = 0 := by
  induction m with
  | nil => rfl
  | cons p rest ih =>
    rcases p with ⟨k0, v0⟩
    have hk0 : k0 ≠ k := h (k0, v0) (List.mem_cons_self _ _)
    simp only [mapGet, if_neg hk0]
    exact ih (fun q hq => h q (List.mem_cons_of_mem _ hq))

theorem appendAll_eq_append (h : List HistoryEntry) (calls : List (Nat × Verification)) :
    appendAll h calls = h ++ calls.map (fun c => mkEntry c.1 c.2) := by
  induction calls generalizing h with
  | nil => simp [appendAll]
  | cons c rest ih =>
    simp only [appendAll, List.foldl_cons, List.map_cons]
    rw [show List.foldl (fun h c => addEntry h c.1 c.2) (addEntry h c.1 c.2) rest =
      appendAll (addEntry h c.1 c.2) rest from rfl, ih]
    simp [addEntry]

theorem verifyStringInfo_isValid (hs : HashFns) (info ctx : String)
    (document : GenericDocumentF) (root : Nat) (out : PublicOutput)
    (h : verifyStringInfo hs info ctx document root = some out) : out.isValid = true := by
  simp only [verifyStringInfo, Option.some.injEq] at h
  rw [← h]

theorem verifyDate_isValid (hs : HashFns) (day month year : Nat)
    (document : GenericDocumentF) (root : Nat) (out : PublicOutput)
    (h : verifyDate hs day month year document root = some out) : out.isValid = true := by
  simp only [verifyDate] at h
  split at h
  · split at h
    · simp only [Option.some.injEq] at h
      rw [← h]
    · exact Option.noConfusion h
  · exact Option.noConfusion h

theorem verifyAgeRange_isValid (hs : HashFns) (currentYear : Nat)
    (birthDay birthMonth birthYear minAge maxAge : Nat)
    (document : GenericDocumentF) (root : Nat) (out : PublicOutput)
    (h : verifyAgeRange hs currentYear birthDay birthMonth birthYear minAge maxAge
      document root = some out) : out.isValid = true := by
  simp only [verifyAgeRange] at h
  split at h
  · split at h
    · simp only [Option.some.injEq] at h
      rw [← h]
    · exact Option.noConfusion h
  · exact Option.noConfusion h

theorem verifyDocumentValidity_isValid (hs : HashFns) (document : GenericDocumentF)
    (root : Nat) (out : PublicOutput)
    (h : verifyDocumentValidity hs document root = some out) : out.isValid = true := by
  simp only [verifyDocumentValidity] at h
  split at h
  · simp only [Option.some.injEq] at h
    rw [← h]
  · exact Option.noConfusion h

theorem proveStringInfo_new_entries (hs : HashFns) (now : Nat) (info : String)
    (document : GenericDocumentF) (root : Nat) (query : String)
    (h : List HistoryEntry) (e : HistoryEntry)
    (he : e ∈ (proveStringInfo hs now info document root query h).2) :
    e ∈ h ∨ e.result = true := by
  simp only [proveStringInfo, verifyStringInfo, addEntry] at he
  rcases List.mem_append.mp he with h1 | h2
  · exact Or.inl h1
  · right
    rw [List.mem_singleton.mp h2]
    rfl

theorem proveDate_new_entries (hs : HashFns) (now day month year : Nat)
    (document : GenericDocumentF) (root : Nat) (query : String)
    (h : List HistoryEntry) (e : HistoryEntry)
    (he : e ∈ (proveDate hs now day month year document root query h).2) :
    e ∈ h ∨ e.result = true := by
  cases hv : verifyDate hs day month year document root with
  | none =>
    simp only [proveDate, hv] at he
    exact Or.inl he
  | some out =>
    simp only [proveDate, hv, addEntry] at he
    rcases List.mem_append.mp he with h1 | h2
    · exact Or.inl h1
    · right
      rw [List.mem_singleton.mp h2]
      exact verifyDate_isValid hs day month year document root out hv

theorem proveAgeRange_new_entries (hs : HashFns) (currentYear now : Nat)
    (birthDay birthMonth birthYear minAge maxAge : Nat)
    (document : GenericDocumentF) (root : Nat) (query : String)
    (h : List HistoryEntry) (e : HistoryEntry)
    (he : e ∈ (proveAgeRange hs currentYear now birthDay birthMonth birthYear
      minAge maxAge document root query h).2) :
    e ∈ h ∨ e.result = true := by
  cases hv : verifyAgeRange hs currentYear birthDay birthMonth birthYear minAge maxAge
      document root with
  | none =>
    simp only [proveAgeRange, hv] at he
    exact Or.inl he
  | some out =>
    simp only [proveAgeRange, hv, addEntry] at he
    rcases List.mem_append.mp he with h1 | h2
    · exact Or.inl h1
    · right
      rw [List.mem_singleton.mp h2]
      exact verifyAgeRange_isValid hs currentYear birthDay birthMonth birthYear
        minAge maxAge document root out hv

theorem proveDocumentValidity_new_entries (hs : HashFns) (now : Nat)
    (document : GenericDocumentF) (root : Nat) (query : String)
    (h : List HistoryEntry) (e : HistoryEntry)
    (he : e ∈ (proveDocumentValidity hs now document root query h).2) :
    e ∈ h ∨ e.result = true := by
  cases hv : verifyDocumentValidity hs document root with
  | none =>
    simp only [proveDocumentValidity, hv] at he
    exact Or.inl he
  | some out =>
    simp only [proveDocumentValidity, hv, addEntry] at he
    rcases List.mem_append.mp he with h1 | h2
    · exact Or.inl h1
    · right
      rw [List.mem_singleton.mp h2]
      exact verifyDocumentValidity_isValid hs document root out hv

/-- C1 (counterexample): a request whose age-range predicate is false (birth
year 2020 against current year 2025 with requested range [18, 150]) makes
`proveAgeRange` return `success = false` with no `isValid` payload — not the
`success = true`, `isValid = false` outcome the claim asserts. -/
theorem proveAgeRange_predicate_false_not_reported_valid :
    (proveAgeRange trivHash 2025 0 1 1 2020 18 150 sampleDoc 0 "q" []).1.success = false ∧
    (proveAgeRange trivHash 2025 0 1 1 2020 18 150 sampleDoc 0 "q" []).1.isValid
      ≠ some false := by
  decide

/-- C1 (amended): whenever the chosen age-range predicate evaluates to false
on the supplied values, the circuit assertion fails, so the orchestrator
returns a failure result `success = false` (with no `isValid` field) and
records nothing in the history; `isValid = false` is never produced. -/
theorem proveAgeRange_predicate_false_fails (hs : HashFns)
    (currentYear now birthDay birthMonth birthYear minAge maxAge : Nat)
    (document : GenericDocumentF) (revocationRoot : Nat) (query : String)
    (history : List HistoryEntry)
    (hyr : birthYear ≤ currentYear)
    (hout : ¬ (minAge ≤ currentYear - birthYear ∧ currentYear - birthYear ≤ maxAge)) :
    proveAgeRange hs currentYear now birthDay birthMonth birthYear minAge maxAge
      document revocationRoot query history
      = ({ success := false, isValid := none }, history) := by
  simp only [proveAgeRange, verifyAgeRange]
  rw [if_pos hyr, if_neg hout]

/-- C1 (witness): the amended statement applied at birth year 2010, current
year 2025, requested range [18, 150]. -/
theorem proveAgeRange_predicate_false_fails_witness :
    proveAgeRange trivHash 2025 4 1 1 2010 18 150 sampleDoc 0 "q" []
      = ({ success := false, isValid := none }, []) :=
  proveAgeRange_predicate_false_fails trivHash 2025 4 1 1 2010 18 150 sampleDoc 0 "q" []
    (by decide) (by decide)

/-- C2 (counterexample): the query `"Quel est l\x27âge ? Est-ce que la personne
est majeure ?"` contains neither the substring `date` nor a birth keyword, so
`generateProofFromQuery` dispatches it to the generic string proof, not to
`proveAgeRange(value, 18, 150, ...)`. -/
theorem classify_majority_query_is_string :
    classifyQuery "Quel est l\x27âge ? Est-ce que la personne est majeure ?"
      = ProofDispatch.stringInfo ∧
    classifyQuery "Quel est l\x27âge ? Est-ce que la personne est majeure ?"
      ≠ ProofDispatch.ageRange 18 150 := by
  exact ⟨by decide, by decide⟩

/-- C2 (amended): that query is classified as a generic STRING proof
(dispatched to `proveStringInfo`), because it contains neither `date` nor a
birth keyword; the keyword precedence rule itself holds: any query containing
`date`, a birth keyword (`naissance`/`né`/`née`) and a majority keyword
(`majeur`/`adulte`/`18 ans`) is dispatched to `proveAgeRange` with bounds
[18, 150]. -/
theorem classify_query_dispatch :
    classifyQuery "Quel est l\x27âge ? Est-ce que la personne est majeure ?"
      = ProofDispatch.stringInfo ∧
    ∀ query : String,
      strHasSub (jsToLowerCase query) "date" = true →
      (strHasSub (jsToLowerCase query) "naissance" ||
        strHasSub (jsToLowerCase query) "né" ||
        strHasSub (jsToLowerCase query) "née") = true →
      (strHasSub (jsToLowerCase query) "majeur" ||
        strHasSub (jsToLowerCase query) "adulte" ||
        strHasSub (jsToLowerCase query) "18 ans") = true →
      classifyQuery query = ProofDispatch.ageRange 18 150 := by
  refine ⟨by decide, fun query hd hb hm => ?_⟩
  simp [classifyQuery, hd, hb, hm]

/-- C2 (witness): the precedence rule applied to a query that does contain
`date`, a birth keyword and a majority keyword. -/
theorem classify_query_dispatch_witness :
    classifyQuery "Quelle est la date de naissance ? La personne est-elle majeure ?"
      = ProofDispatch.ageRange 18 150 :=
  classify_query_dispatch.2
    "Quelle est la date de naissance ? La personne est-elle majeure ?"
    (by decide) (by decide) (by decide)

/-- C3: each of the four circuit methods, whenever it completes without an
assertion failure, returns a public output with `isValid = true`; and every
history entry recorded by the four `ZkpManager` prove wrappers (beyond the
entries already present) has `result = true`, so a "claim proven false"
outcome is never produced or recorded. -/
theorem circuit_outputs_always_valid :
    (∀ hs info ctx document root out,
        verifyStringInfo hs info ctx document root = some out → out.isValid = true) ∧
    (∀ hs day month year document root out,
        verifyDate hs day month year document root = some out → out.isValid = true) ∧
    (∀ hs currentYear birthDay birthMonth birthYear minAge maxAge document root out,
        verifyAgeRange hs currentYear birthDay birthMonth birthYear minAge maxAge
          document root = some out → out.isValid = true) ∧
    (∀ hs document root out,
        verifyDocumentValidity hs document root = some out → out.isValid = true) ∧
    (∀ hs now info document root query h e,
        e ∈ (proveStringInfo hs now info document root query h).2 →
          e ∈ h ∨ e.result = true) ∧
    (∀ hs now day month year document root query h e,
        e ∈ (proveDate hs now day month year document root query h).2 →
          e ∈ h ∨ e.result = true) ∧
    (∀ hs currentYear now birthDay birthMonth birthYear minAge maxAge document root
        query h e,
        e ∈ (proveAgeRange hs currentYear now birthDay birthMonth birthYear minAge
          maxAge document root query h).2 → e ∈ h ∨ e.result = true) ∧
    (∀ hs now document root query h e,
        e ∈ (proveDocumentValidity hs now document root query h).2 →
          e ∈ h ∨ e.result = true) :=
  ⟨verifyStringInfo_isValid, verifyDate_isValid, verifyAgeRange_isValid,
    verifyDocumentValidity_isValid, proveStringInfo_new_entries, proveDate_new_entries,
    proveAgeRange_new_entries, proveDocumentValidity_new_entries⟩

/-- C3 (witness): the string circuit at a concrete input yields a valid
output, and a concrete entry appended by `proveAgeRange` has `result = true`. -/
theorem circuit_outputs_always_valid_witness :
    ({ infoHash := 0, documentHash := 0, isValid := true, proofTypeHash := 0,
        revocationRootHash := 0 } : PublicOutput).isValid = true ∧
    (mkEntry 7
          { infoHash := 0, documentHash := 0, query := "q", result := true,
            proofType := "age_range_verification" } ∈ ([] : List HistoryEntry) ∨
      (mkEntry 7
          { infoHash := 0, documentHash := 0, query := "q", result := true,
            proofType := "age_range_verification" }).result = true) :=
  ⟨circuit_outputs_always_valid.1 trivHash "info" "ctx" sampleDoc 0 _ rfl,
   circuit_outputs_always_valid.2.2.2.2.2.2.1 trivHash 2025 7 1 1 2000 18 150 sampleDoc
     0 "q" [] _ (by decide)⟩

/-- C4 (counterexample): a birth date one day after the reference date does
not make `Person.fromPersonData` fail — it constructs the fingerprint, with
the computed age in days equal to -1, stored wrapped as the field element
`fieldP - 1`. -/
theorem fromPersonData_future_birth_constructs :
    computedAgeInDays 0 86400000 = -1 ∧
    (fromPersonData trivHash "Marie" "Lambert" "" 86400000 0).ageProof = fieldP - 1 := by
  exact ⟨rfl, by decide⟩

/-- C4 (amended): person-fingerprint construction never fails; for every
birth date strictly after the reference date it still returns a fingerprint,
whose computed age in days is strictly negative and is stored reduced modulo
the field order. -/
theorem fromPersonData_never_fails_neg_age (hs : HashFns)
    (firstName lastName address : String) (birthTime referenceTime : Int)
    (hfut : referenceTime < birthTime) :
    computedAgeInDays referenceTime birthTime < 0 ∧
    (fromPersonData hs firstName lastName address birthTime referenceTime).ageProof
      = fieldOfInt (computedAgeInDays referenceTime birthTime) := by
  refine ⟨?_, rfl⟩
  have hneg : referenceTime - birthTime < 0 := by omega
  exact Int.fdiv_neg' hneg (by norm_num)

/-- C4 (witness): the amended statement at a birth date two days after the
reference date. -/
theorem fromPersonData_never_fails_neg_age_witness :
    computedAgeInDays 0 172800000 < 0 ∧
    (fromPersonData trivHash "Jean" "Dupont" "" 172800000 0).ageProof
      = fieldOfInt (computedAgeInDays 0 172800000) :=
  fromPersonData_never_fails_neg_age trivHash "Jean" "Dupont" "" 172800000 0 (by decide)

/-- C5: `isAdult`/`estMajeur` hold exactly when the stored age in days is at
least 18 × 365 = 6570; the boundary values 6570 and 6569 witness both sides. -/
theorem isAdult_boundary :
    (∀ p : Person, p.isAdult = true ↔ 6570 ≤ p.ageProof) ∧
    (∀ e : Etudiant, e.estMajeur = true ↔ 6570 ≤ e.ageEnJours) ∧
    Person.isAdult
      { firstNameHash := 1, lastNameHash := 2, ageProof := 6570, addressHash := 0 }
      = true ∧
    Person.isAdult
      { firstNameHash := 1, lastNameHash := 2, ageProof := 6569, addressHash := 0 }
      = false := by
  refine ⟨fun p => ?_, fun e => ?_, by decide, by decide⟩
  · simp [Person.isAdult]
  · simp [Etudiant.estMajeur]

/-- C6: `ageEstDansIntervalle(min, max)` holds exactly when
`min×365 ≤ ageEnJours ≤ max×365`; for the range [18, 25] it is true at 6570
and 9125 days and false at 6569 and 9126 days. -/
theorem ageEstDansIntervalle_boundary :
    (∀ (e : Etudiant) (minAnnees maxAnnees : Nat),
        e.ageEstDansIntervalle minAnnees maxAnnees = true ↔
          minAnnees * 365 ≤ e.ageEnJours ∧ e.ageEnJours ≤ maxAnnees * 365) ∧
    Etudiant.ageEstDansIntervalle ⟨1, 2, 3, 4, 6570⟩ 18 25 = true ∧
    Etudiant.ageEstDansIntervalle ⟨1, 2, 3, 4, 9125⟩ 18 25 = true ∧
    Etudiant.ageEstDansIntervalle ⟨1, 2, 3, 4, 6569⟩ 18 25 = false ∧
    Etudiant.ageEstDansIntervalle ⟨1, 2, 3, 4, 9126⟩ 18 25 = false := by
  refine ⟨fun e mn mx => ?_, by decide, by decide, by decide, by decide⟩
  simp [Etudiant.ageEstDansIntervalle]

/-- C7: evaluating the code at the failing input — after `revoke(5, 100)` the
map stores timestamp 100 and the documented semantics would report revoked,
but `isRevoked` still returns `false`; indeed `isRevoked` returns `false` on
every input, because the source negates the o1js `Bool` object returned by
`equals` (an object, hence always truthy) instead of its boolean value. -/
theorem isRevoked_constant_false_after_revoke :
    isRevoked (revoke [] 5 100) 5 = false ∧
    mapGet (revoke [] 5 100) 5 = 100 ∧
    isRevokedDocumented (revoke [] 5 100) 5 = true ∧
    (∀ m hash, isRevoked m hash = false) :=
  ⟨rfl, rfl, rfl, fun _ _ => rfl⟩

/-- C8: appends are pure list extensions — after any sequence of `addEntry`
calls all targeting document fingerprint `f`, `getForDocument f` returns
exactly those entries, in call order, appended after the previously matching
ones; the prior history is preserved unchanged as a prefix, and from an empty
history N such appends yield exactly N records. -/
theorem history_append_only (f : Nat) (h : List HistoryEntry)
    (calls : List (Nat × Verification))
    (hall : ∀ c ∈ calls, (c.2).documentHash = f) :
    appendAll h calls = h ++ calls.map (fun c => mkEntry c.1 c.2) ∧
    getForDocument (appendAll h calls) f
      = getForDocument h f ++ calls.map (fun c => mkEntry c.1 c.2) ∧
    (getForDocument (appendAll [] calls) f).length = calls.length := by
  have hfilter : (calls.map (fun c => mkEntry c.1 c.2)).filter
      (fun entry => entry.documentHash == f) = calls.map (fun c => mkEntry c.1 c.2) := by
    apply List.filter_eq_self.mpr
    intro e he
    rcases List.mem_map.mp he with ⟨c, hc, rfl⟩
    simpa [mkEntry] using hall c hc
  refine ⟨appendAll_eq_append h calls, ?_, ?_⟩
  · rw [appendAll_eq_append, getForDocument, getForDocument, List.filter_append, hfilter]
  · rw [appendAll_eq_append]
    simp only [List.nil_append, getForDocument, hfilter, List.length_map]

/-- C8 (witness): two appends targeting document hash 3 from an empty history
yield exactly two records for that document. -/
theorem history_append_only_witness :
    (getForDocument (appendAll [] [(1, sampleVerifA), (2, sampleVerifB)]) 3).length = 2 :=
  (history_append_only 3 [] [(1, sampleVerifA), (2, sampleVerifB)] (by decide)).2.2

/-- C9: revoking with an explicit timestamp of zero stores the sentinel value
0, so the fingerprint still reads as not revoked — both through the code's
`isRevoked` and through its documented semantics — and no error is raised
(`revoke` is a total update). -/
theorem revoke_zero_timestamp_ineffective (m : List (Nat × Nat)) (f : Nat) :
    isRevoked (revoke m f 0) f = false ∧
    mapGet (revoke m f 0) f = 0 ∧
    isRevokedDocumented (revoke m f 0) f = false := by
  refine ⟨rfl, mapGet_mapSet_self m f 0, ?_⟩
  simp [isRevokedDocumented, fieldEqualsZero, revoke, mapGet_mapSet_self m f 0]

/-- C10: the accept/reject outcome of `verifyAgeRange` depends only on the
birth year (and the ambient current year): any two birth dates in the same
calendar year make the circuit accept or fail identically, whatever their day
and month. -/
theorem verifyAgeRange_ignores_day_month (hs : HashFns)
    (currentYear d1 m1 d2 m2 birthYear minAge maxAge : Nat)
    (document : GenericDocumentF) (revocationRoot : Nat) :
    (verifyAgeRange hs currentYear d1 m1 birthYear minAge maxAge document
      revocationRoot).isSome
      = (verifyAgeRange hs currentYear d2 m2 birthYear minAge maxAge document
        revocationRoot).isSome := by
  by_cases h1 : birthYear ≤ currentYear
  · by_cases h2 : minAge ≤ currentYear - birthYear ∧ currentYear - birthYear ≤ maxAge
    · simp only [verifyAgeRange, if_pos h1, if_pos h2, Option.isSome_some]
    · simp only [verifyAgeRange, if_pos h1, if_neg h2]
  · simp only [verifyAgeRange, if_neg h1]

end ZkFirmation
